import Mathlib

/-!
Verification of the ghostworker-hub automation/routing engine specification
against the repository's source (TypeScript client, `websocket.ts` service,
and the SQL schema).  Components whose server-side implementation is not in
the repository (the rule engine, webhook dispatcher, workflow activation,
scheduled-message dispatcher) are modelled from the specification text, as
indicated by their doc comments.
-/

namespace GhostWorker

/-! ## Rule engine data model (from src/src/types/index.ts, lines 116-135) -/

/-- Condition fields of `RoutingCondition` (src/src/types/index.ts line 126). -/
inductive CField where
  | sentiment | platform | language | keyword | customer_tag
deriving DecidableEq, Repr

/-- Condition operators of `RoutingCondition` (src/src/types/index.ts line 127). -/
inductive COp where
  | equals | contains | greater_than | less_than
deriving DecidableEq, Repr

/-- `RoutingCondition` (src/src/types/index.ts lines 125-129). -/
structure RoutingCondition where
  field : CField
  operator : COp
  value : String
deriving DecidableEq, Repr

/-- Action types of `RoutingAction` (src/src/types/index.ts line 132). -/
inductive ActionType where
  | assign_to_user | assign_to_team | add_tag | send_auto_reply | escalate
deriving DecidableEq, Repr

/-- `RoutingAction` (src/src/types/index.ts lines 131-135). -/
structure RoutingAction where
  type : ActionType
  target_id : Option String := none
  template_id : Option String := none
deriving DecidableEq, Repr

/-- `SmartRoutingRule` (src/src/types/index.ts lines 116-123).  The SQL table
`smart_routing_rules` additionally stores `team_id` and `matched_count`;
neither affects which actions an evaluation outputs, so they are omitted
from the record used here. -/
structure SmartRoutingRule where
  id : String
  name : String
  conditions : List RoutingCondition
  action : RoutingAction
  priority : Nat
  is_active : Bool
deriving DecidableEq, Repr

/-- Evaluation context: the value (if any) each condition field takes for the
event under evaluation (spec §4.2: "a context built from the event payload
and referenced entities"). -/
def EvalContext := CField → Option String

/-- Non-fatal condition-evaluation errors (spec §7 taxonomy). -/
inductive CondError where
  | conditionTypeMismatch
deriving DecidableEq, Repr

/-- Character comparison on code points. -/
def charLtB (a b : Char) : Bool := a.toNat < b.toNat

/-- Lexicographic strict order on character lists. -/
def strLtChars : List Char → List Char → Bool
  | [], [] => false
  | [], _ :: _ => true
  | _ :: _, [] => false
  | a :: as, b :: bs => charLtB a b || (a == b && strLtChars as bs)

/-- Lexicographic `≤` on strings (used for the deterministic `(priority, id)`
tie-break of §3). -/
def strLeB (a b : String) : Bool := a == b || strLtChars a.data b.data

/-- Value of a decimal digit character, if it is one. -/
def digitVal (c : Char) : Option Nat :=
  if 48 ≤ c.toNat && c.toNat ≤ 57 then some (c.toNat - 48) else none

/-- Parse a non-empty all-digit character list as a natural number. -/
def parseNatChars : List Char → Option Nat
  | [] => none
  | [c] => digitVal c
  | c :: cs =>
    match digitVal c, parseNatChars cs with
    | some d, some n => some (d * 10 ^ cs.length + n)
    | _, _ => none

/-- Modelled from the spec: coercion of a field value "to a number" for the
numeric operators (§4.2): an optional sign followed by decimal digits;
anything else is not coercible. -/
def toNumber (s : String) : Option Int :=
  match s.data with
  | '-' :: rest => (parseNatChars rest).map (fun n => -(n : Int))
  | l => (parseNatChars l).map (fun n => (n : Int))

/-- Whether `pat` occurs at the start of `l`. -/
def isPrefixChars : List Char → List Char → Bool
  | [], _ => true
  | _ :: _, [] => false
  | a :: as, b :: bs => a == b && isPrefixChars as bs

/-- Whether `pat` occurs anywhere in `l` (substring occurrence on the
underlying character lists). -/
def containsSub (pat : List Char) : List Char → Bool
  | [] => pat.isEmpty
  | c :: t => isPrefixChars pat (c :: t) || containsSub pat t

/-- JS-style `String.includes`: the `contains` operator checks that the
condition's `value` occurs as a substring of the field's value. -/
def strContains (v pat : String) : Bool :=
  containsSub pat.toList v.toList

/-- Modelled from the spec: condition evaluation (§4.2).  `equals`/`contains`
compare strings; `greater_than`/`less_than` coerce both the context value
and the condition's `value` to a number, and a non-coercible value is a
`ConditionTypeMismatch` error.  A field absent from the context is a plain
non-match. -/
def evalCondition (ctx : EvalContext) (c : RoutingCondition) : Except CondError Bool :=
  match ctx c.field with
  | none => .ok false
  | some v =>
    match c.operator with
    | .equals => .ok (v == c.value)
    | .contains => .ok (strContains v c.value)
    | .greater_than =>
      match toNumber v, toNumber c.value with
      | some a, some b => .ok (decide (b < a))
      | _, _ => .error .conditionTypeMismatch
    | .less_than =>
      match toNumber v, toNumber c.value with
      | some a, some b => .ok (decide (a < b))
      | _, _ => .error .conditionTypeMismatch

/-- Modelled from the spec: a `ConditionTypeMismatch` "fails that single
condition (treated as non-match), not the whole evaluation" (§4.2). -/
def condHolds (ctx : EvalContext) (c : RoutingCondition) : Bool :=
  match evalCondition ctx c with
  | .ok b => b
  | .error _ => false

/-- Modelled from the spec: all conditions of a rule are AND-ed (§3). -/
def ruleMatches (ctx : EvalContext) (r : SmartRoutingRule) : Bool :=
  r.conditions.all (condHolds ctx)

/-- Modelled from the spec: the total evaluation order on rules, by
`(priority, id)` with lower priority evaluated first (§3). -/
def ruleLE (a b : SmartRoutingRule) : Bool :=
  a.priority < b.priority || (a.priority == b.priority && strLeB a.id b.id)

/-- Insert a rule into a `ruleLE`-sorted list, keeping it sorted. -/
def insertRule (r : SmartRoutingRule) : List SmartRoutingRule → List SmartRoutingRule
  | [] => [r]
  | s :: rest => if ruleLE r s then r :: s :: rest else s :: insertRule r rest

/-- Modelled from the spec: "load active rules for `team_id` sorted by
`(priority, id)`" (§4.2) — insertion sort by `ruleLE`. -/
def sortRules (rs : List SmartRoutingRule) : List SmartRoutingRule :=
  rs.foldr insertRule []

/-- Active rules of a rule set. -/
def activeRules (rs : List SmartRoutingRule) : List SmartRoutingRule :=
  rs.filter (·.is_active)

/-- The order in which an evaluation considers a team's rules. -/
def evalOrder (rs : List SmartRoutingRule) : List SmartRoutingRule :=
  sortRules (activeRules rs)

/-- Modelled from the spec: the per-team match policy switch — "first match"
and "all matches" are both legitimate policies (§4.2). -/
inductive MatchPolicy where
  | firstMatch | allMatches
deriving DecidableEq, Repr

/-- Modelled from the spec: walk the sorted rules; on a full match append the
rule's action and, under `firstMatch`, stop (§4.2). -/
def evalSorted (p : MatchPolicy) (ctx : EvalContext) :
    List SmartRoutingRule → List RoutingAction
  | [] => []
  | r :: rest =>
    if ruleMatches ctx r then
      match p with
      | .firstMatch => [r.action]
      | .allMatches => r.action :: evalSorted p ctx rest
    else evalSorted p ctx rest

/-- Modelled from the spec: `evaluate(Event, team_id) -> list<Action>` (§4.2),
with the team's rule set passed explicitly. -/
def evaluate (p : MatchPolicy) (rs : List SmartRoutingRule) (ctx : EvalContext) :
    List RoutingAction :=
  evalSorted p ctx (evalOrder rs)

/-- Modelled from the spec: the sequence of rules that match during one
evaluation, in evaluation order (under `firstMatch` only the first matching
rule is reached). -/
def matchedSorted (p : MatchPolicy) (ctx : EvalContext) :
    List SmartRoutingRule → List SmartRoutingRule
  | [] => []
  | r :: rest =>
    if ruleMatches ctx r then
      match p with
      | .firstMatch => [r]
      | .allMatches => r :: matchedSorted p ctx rest
    else matchedSorted p ctx rest

/-- The matched-rule sequence of one evaluation run. -/
def matchedRules (p : MatchPolicy) (rs : List SmartRoutingRule) (ctx : EvalContext) :
    List SmartRoutingRule :=
  matchedSorted p ctx (evalOrder rs)

/-! ## The C1 scenario data (spec §8; sample rules of
src/src/components/ai/SmartRouting.tsx, lines 62-87) -/

/-- Scenario rule 1: negative sentiment escalates, priority 1. -/
def scenarioRule1 : SmartRoutingRule :=
  { id := "1", name := "High Priority - Negative Sentiment"
    conditions := [{ field := .sentiment, operator := .equals, value := "negative" }]
    action := { type := .escalate }
    priority := 1, is_active := true }

/-- Scenario rule 2: Spanish speakers are assigned to the es team, priority 2. -/
def scenarioRule2 : SmartRoutingRule :=
  { id := "2", name := "Spanish Speakers"
    conditions := [{ field := .language, operator := .equals, value := "es" }]
    action := { type := .assign_to_team, target_id := some "es-team" }
    priority := 2, is_active := true }

/-- Scenario event context: `sentiment=negative, language=es`. -/
def scenarioCtx : EvalContext := fun f =>
  match f with
  | .sentiment => some "negative"
  | .language => some "es"
  | _ => none

/-- An extra matching rule, of lower `priority` value than `scenarioRule1`,
used to refute the "every rule set containing r1 and r2" quantification. -/
def scenarioRule0 : SmartRoutingRule :=
  { id := "0", name := "Tag negatives"
    conditions := [{ field := .sentiment, operator := .equals, value := "negative" }]
    action := { type := .add_tag, target_id := some "angry" }
    priority := 0, is_active := true }

/-! ## Webhook delivery (schema table `webhook_events`,
src/unnamed/part_000 lines 608-619; dispatcher semantics from spec §4.5) -/

/-- Delivery status of a `webhook_events` row (`pending`/`delivered`/`failed`,
spec §3 and the `status VARCHAR(20) DEFAULT 'pending'` column). -/
inductive WebhookStatus where
  | pending | delivered | failed
deriving DecidableEq, Repr

/-- The delivery-relevant fields of a `webhook_events` row: `status` and
`retry_count` (src/unnamed/part_000 lines 608-619). -/
structure WebhookRecord where
  status : WebhookStatus
  retry_count : Nat
deriving DecidableEq, Repr

/-- Modelled from the spec: the backoff delay before the retry scheduled at
`retry_count` — "base delay × 2^retry_count, capped, plus jitter" (§4.5).
The random jitter draw is modelled as a fixed additive term. -/
def backoffDelay (base cap jitter : Nat) (retry_count : Nat) : Nat :=
  min (base * 2 ^ retry_count) cap + jitter

/-- Modelled from the spec: one delivery attempt of the webhook dispatcher
(§4.5).  A `2xx` outcome (`ok = true`) transitions to `delivered`; any other
outcome increments `retry_count` and, once the maximum retry count is
reached, transitions to the terminal `failed`.  A record that is not
`pending` is never attempted again, so it is returned unchanged. -/
def deliveryAttempt (maxRetries : Nat) (r : WebhookRecord) (ok : Bool) : WebhookRecord :=
  match r.status with
  | .pending =>
    if ok then { status := .delivered, retry_count := r.retry_count }
    else if maxRetries ≤ r.retry_count + 1 then
      { status := .failed, retry_count := r.retry_count + 1 }
    else
      { status := .pending, retry_count := r.retry_count + 1 }
  | _ => r

/-- Fold a sequence of attempt outcomes over a webhook record. -/
def deliveryRun (maxRetries : Nat) : WebhookRecord → List Bool → WebhookRecord
  | r, [] => r
  | r, ok :: rest => deliveryRun maxRetries (deliveryAttempt maxRetries r ok) rest

/-- A freshly created `webhook_events` row: `status = pending`,
`retry_count = 0` (the column defaults of src/unnamed/part_000). -/
def freshWebhook : WebhookRecord := { status := .pending, retry_count := 0 }

/-! ## Scheduled messages (src/src/types/index.ts lines 196-206; schema table
`scheduled_messages`, src/unnamed/part_000 lines 713-727; lifecycle from
spec §3 and §4.6) -/

/-- `ScheduledMessage.status` (src/src/types/index.ts line 203). -/
inductive ScheduledStatus where
  | draft | scheduled | sent | cancelled
deriving DecidableEq, Repr

/-- `MessageSchedule.type` (src/src/types/index.ts line 215). -/
inductive ScheduleType where
  | once | recurring
deriving DecidableEq, Repr

/-- The lifecycle-relevant fields of a `ScheduledMessage`. -/
structure SMsg where
  status : ScheduledStatus
  schedule : ScheduleType
  sent_count : Nat
deriving DecidableEq, Repr

/-- The operations that touch a scheduled message's status. -/
inductive SMsgOp where
  | activate | fire | cancel
deriving DecidableEq, Repr

/-- Modelled from the spec: the scheduled-message lifecycle (§3, §4.6).
`activate` moves `draft` to `scheduled`; a tick `fire` on a `scheduled`
message sends it, moving a `once` schedule to `sent` while a `recurring`
schedule stays `scheduled`; `cancel` moves any non-`sent` state to the
terminal `cancelled`.  Any other combination is rejected (`none`). -/
def smStep : SMsgOp → SMsg → Option SMsg
  | .activate, m =>
    match m.status with
    | .draft => some { m with status := .scheduled }
    | _ => none
  | .fire, m =>
    match m.status with
    | .scheduled =>
      match m.schedule with
      | .once => some { m with status := .sent, sent_count := m.sent_count + 1 }
      | .recurring => some { m with sent_count := m.sent_count + 1 }
    | _ => none
  | .cancel, m =>
    match m.status with
    | .draft => some { m with status := .cancelled }
    | .scheduled => some { m with status := .cancelled }
    | _ => none

/-- The status transitions the spec allows (§3): `draft→scheduled`,
`scheduled→sent` (one-shot fire), `scheduled→scheduled` (recurring fire),
and non-`sent`→`cancelled`. -/
def allowedTransition (a b : ScheduledStatus) : Bool :=
  match a, b with
  | .draft, .scheduled => true
  | .scheduled, .sent => true
  | .scheduled, .scheduled => true
  | .draft, .cancelled => true
  | .scheduled, .cancelled => true
  | _, _ => false

/-! ## Rule reordering (client stub `routingApi.reorder`,
src/src/lib/api.ts lines 231-232; semantics from spec §6 and §9) -/

/-- Find the rule with the given id. -/
def findRule (rs : List SmartRoutingRule) (i : String) : Option SmartRoutingRule :=
  rs.find? (fun r => r.id == i)

/-- Reassign consecutive priorities `n, n+1, …` along a list of rules. -/
def assignPriorities (n : Nat) : List SmartRoutingRule → List SmartRoutingRule
  | [] => []
  | r :: rest => { r with priority := n } :: assignPriorities (n + 1) rest

/-- Modelled from the spec: `reorder(rule_ids: ordered list)` (§6) replaces
the team's priority ordering in one atomic swap (§9, "explicit sorted
structure with an atomic swap on `reorder`"): the rules named by
`rule_ids`, in that order, receive the fresh consecutive priorities
`0, 1, …`. -/
def reorder (rs : List SmartRoutingRule) (ruleIds : List String) :
    List SmartRoutingRule :=
  assignPriorities 0 (ruleIds.filterMap (findRule rs))

/-- Whether a rule id resolves, in the rule set, to an active rule. -/
def resolvesActive (rs : List SmartRoutingRule) (i : String) : Bool :=
  match findRule rs i with
  | some r => r.is_active
  | none => false

/-! ## Workflow activation (client stub `workflowsApi.activate`,
src/src/lib/api.ts lines 245-246; validation semantics from spec §3, §6) -/

/-- `WorkflowConnection` (src/src/types/index.ts lines 162-168), restricted
to the graph-structural fields. -/
structure WorkflowConnection where
  source_id : String
  target_id : String
deriving DecidableEq, Repr

/-- The node graph of a `Workflow`/`ChatbotFlow`: its node ids and its
connections (src/src/types/index.ts lines 138-168). -/
structure WorkflowGraph where
  nodes : List String
  connections : List WorkflowConnection
deriving DecidableEq, Repr

/-- Direct successors of a node along the connection list. -/
def successors (cs : List WorkflowConnection) (n : String) : List String :=
  (cs.filter (fun c => c.source_id == n)).map (fun c => c.target_id)

/-- Whether `b` is reachable from `a` along 1 up to `fuel` connections. -/
def reachableIn (cs : List WorkflowConnection) : Nat → String → String → Bool
  | 0, _, _ => false
  | fuel + 1, a, b =>
    (successors cs a).any (fun c => c == b || reachableIn cs fuel c b)

/-- Whether the graph has a cycle: some node reaches itself along at least
one connection (a cycle, if any, closes within `nodes.length` steps). -/
def hasCycle (g : WorkflowGraph) : Bool :=
  g.nodes.any (fun n => reachableIn g.connections g.nodes.length n n)

/-- Entry nodes: nodes with no incoming connection (the candidates the
trigger can start from). -/
def entryNodes (g : WorkflowGraph) : List String :=
  g.nodes.filter (fun n => !(g.connections.any (fun c => c.target_id == n)))

/-- Fatal structural validation errors raised at activation time (spec §7). -/
inductive StructuralValidationError where
  | cycleDetected | badEntryCount
deriving DecidableEq, Repr

/-- Modelled from the spec: activation-time validation (§6): the node graph
must be acyclic and have exactly one entry node. -/
def validateGraph (g : WorkflowGraph) : Except StructuralValidationError Unit :=
  if hasCycle g then .error .cycleDetected
  else if (entryNodes g).length ≠ 1 then .error .badEntryCount
  else .ok ()

/-- A workflow/chatbot flow restricted to the fields activation touches. -/
structure FlowRecord where
  graph : WorkflowGraph
  is_active : Bool
deriving DecidableEq, Repr

/-- Modelled from the spec: `activate` (§6) validates the node graph and only
on success marks the flow active; otherwise it rejects with the structural
error and leaves the flow untouched. -/
def activateFlow (w : FlowRecord) : Except StructuralValidationError FlowRecord :=
  match validateGraph w.graph with
  | .ok _ => .ok { w with is_active := true }
  | .error e => .error e

/-- The stored flow after an activation request: the new record on success,
the old record on rejection. -/
def afterActivate (w : FlowRecord) : FlowRecord :=
  match activateFlow w with
  | .ok w' => w'
  | .error _ => w

/-- Modelled from the spec: an inactive flow never runs (§4.6 cancellation
semantics: only active flows fire). -/
def canRun (w : FlowRecord) : Bool := w.is_active

/-! ## WebSocketService (src/src/services/websocket.ts) -/

/-- The `readyState` of a browser `WebSocket` object. -/
inductive ReadyState where
  | connecting | opened | closing | closed
deriving DecidableEq, Repr

/-- The connection-management state of `WebSocketService`
(src/src/services/websocket.ts lines 11-19): the optional underlying
socket (modelled by its `readyState`), the reconnect counter, and the
`isConnecting` flag. -/
structure WSService where
  ws : Option ReadyState
  reconnectAttempts : Nat
  isConnecting : Bool
deriving DecidableEq, Repr

/-- `private maxReconnectAttempts = 5` (websocket.ts line 14). -/
def maxReconnectAttempts : Nat := 5

/-- `private reconnectDelay = 1000` (websocket.ts line 15). -/
def reconnectDelay : Nat := 1000

/-- `get isConnected() { return this.ws?.readyState === WebSocket.OPEN; }`
(websocket.ts lines 21-23). -/
def isConnected (s : WSService) : Bool := s.ws == some .opened

/-- `connect()` (websocket.ts lines 25-33): guard
`if (this.isConnecting || this.isConnected) return;`, then set
`isConnecting = true` and construct a new `WebSocket` (which starts in the
`CONNECTING` ready state).  The asynchronous `onopen`/`onclose`/`onerror`
callbacks are separate transitions and not part of this call. -/
def connect (s : WSService) : WSService :=
  if s.isConnecting || isConnected s then s
  else { s with isConnecting := true, ws := some .connecting }

/-- `attemptReconnect()` (websocket.ts lines 70-86): when the counter has
reached `maxReconnectAttempts` it returns without scheduling anything;
otherwise it increments the counter and schedules a reconnect after
`reconnectDelay * 2 ^ (attempts - 1)` milliseconds.  The second component
is the scheduled delay, `none` when nothing was scheduled. -/
def attemptReconnect (s : WSService) : WSService × Option Nat :=
  if maxReconnectAttempts ≤ s.reconnectAttempts then (s, none)
  else
    let n := s.reconnectAttempts + 1
    ({ s with reconnectAttempts := n }, some (reconnectDelay * 2 ^ (n - 1)))

/-- `disconnect()` (websocket.ts lines 88-94): close and drop the socket and
set `reconnectAttempts = maxReconnectAttempts` to prevent reconnection. -/
def disconnect (s : WSService) : WSService :=
  { s with ws := none, reconnectAttempts := maxReconnectAttempts }

/-- `n` successive invocations of the automatic reconnect path, collecting
every delay that gets scheduled along the way. -/
def iterateReconnect : Nat → WSService → WSService × List Nat
  | 0, s => (s, [])
  | n + 1, s =>
    let (s', d) := attemptReconnect s
    let (s'', ds) := iterateReconnect n s'
    (s'', d.toList ++ ds)

/-! ### Message dispatch (websocket.ts lines 96-118) -/

/-- A handler failure (a thrown JS exception), tagged for identification. -/
inductive HError where
  | threw (code : Nat)
deriving DecidableEq, Repr

/-- A subscribed handler: an identifying tag together with its behaviour on a
payload — `none` models a normal return, `some e` a thrown exception. -/
def NHandler := Nat × (String → Option HError)

/-- `this.handlers` (websocket.ts line 16): event type → registered handlers,
as an association list. -/
def HandlerMap := List (String × List NHandler)

/-- `this.handlers.get(type)`, with a missing entry as the empty set. -/
def lookupHandlers (hs : HandlerMap) (t : String) : List NHandler :=
  match hs.find? (fun p => p.1 == t) with
  | some p => p.2
  | none => []

/-- `handlers.forEach(handler => handler(...))` (websocket.ts lines 99 and
105): invoke the handlers in order.  There is no per-handler try/catch, so
a thrown exception aborts the `forEach` and propagates.  Returns the tags
of the handlers that were invoked and the propagated exception, if any. -/
def runHandlers : List NHandler → String → List Nat × Option HError
  | [], _ => ([], none)
  | h :: rest, p =>
    match h.2 p with
    | some e => ([h.1], some e)
    | none =>
      let (is, err) := runHandlers rest p
      (h.1 :: is, err)

/-- A parsed `WebSocketMessage` (websocket.ts lines 6-9), with the opaque
`payload` modelled as a string. -/
structure WSMessage where
  type : String
  payload : String
deriving DecidableEq, Repr

/-- `handleMessage` (websocket.ts lines 96-107): run the handlers registered
for `message.type`, then the `"*"` handlers.  A handler that throws aborts
the rest of its `forEach` and skips the subsequent `"*"` loop entirely;
the exception propagates to the caller of `handleMessage`.  (The source
passes `message.payload` to the typed handlers and the whole message to
the `"*"` handlers; the model hands both the payload, which does not
affect which handlers run.) -/
def handleMessage (hs : HandlerMap) (m : WSMessage) : List Nat × Option HError :=
  let (ran, err) := runHandlers (lookupHandlers hs m.type) m.payload
  match err with
  | some e => (ran, some e)
  | none =>
    let (ran2, err2) := runHandlers (lookupHandlers hs "*") m.payload
    (ran ++ ran2, err2)

/-- The `ws.onmessage` wrapper (websocket.ts lines 42-49): its try/catch
swallows anything `handleMessage` throws, so the event-loop caller always
regains control; only the invocation trace remains observable. -/
def onMessageTrace (hs : HandlerMap) (m : WSMessage) : List Nat :=
  (handleMessage hs m).1

/-- Concrete handler map for the dispatch counterexample: two handlers are
subscribed for type `"t"`; the first throws, the second is well-behaved. -/
def exHandlers : HandlerMap :=
  [("t", [(0, fun _ => some (.threw 7)), (1, fun _ => none)])]

/-- A concrete message of type `"t"`. -/
def exMsg : WSMessage := { type := "t", payload := "p" }

/-- A two-node cyclic graph on an inactive flow, used to witness the
activation-validation theorem. -/
def cyclicFlow : FlowRecord :=
  { graph :=
      { nodes := ["a", "b"]
        connections := [{ source_id := "a", target_id := "b" },
                        { source_id := "b", target_id := "a" }] }
    is_active := false }

/-! ## Helper lemmas -/

/-- A reconnect invocation at a saturated counter changes nothing and
schedules nothing. -/
theorem attemptReconnect_saturated (s : WSService)
    (h : maxReconnectAttempts ≤ s.reconnectAttempts) :
    attemptReconnect s = (s, none) := by
  simp [attemptReconnect, h]

/-- `forEach` dispatch runs a succeeding prefix, then stops at the first
handler that throws; the exception propagates. -/
theorem runHandlers_prefix_throw (p : String) (h : NHandler) (e : HError)
    (post : List NHandler) :
    ∀ pre : List NHandler, (∀ x ∈ pre, x.2 p = none) → h.2 p = some e →
      runHandlers (pre ++ h :: post) p = (pre.map Prod.fst ++ [h.1], some e) := by
  intro pre
  induction pre with
  | nil =>
    intro _ hthrew
    simp [runHandlers, hthrew]
  | cons x rest ih =>
    intro hpre hthrew
    have hx : x.2 p = none := hpre x (by simp)
    have hr := ih (fun y hy => hpre y (by simp [hy])) hthrew
    simp [runHandlers, hx, hr]

/-- The retry counter stays within `maxRetries` throughout a delivery run,
provided a still-pending record has retry headroom. -/
theorem deliveryRun_retry_le (maxRetries : Nat) :
    ∀ (outcomes : List Bool) (r : WebhookRecord),
      (r.status = .pending → r.retry_count < maxRetries) →
      r.retry_count ≤ maxRetries →
      (deliveryRun maxRetries r outcomes).retry_count ≤ maxRetries := by
  intro outcomes
  induction outcomes with
  | nil => intro r _ hle; exact hle
  | cons ok rest ih =>
    intro r hpend hle
    rcases r with ⟨st, rc⟩
    cases st with
    | pending =>
      have hlt : rc < maxRetries := hpend rfl
      cases ok with
      | true => exact ih _ (by intro h; cases h) (Nat.le_of_lt hlt)
      | false =>
        by_cases hcap : maxRetries ≤ rc + 1
        · have : deliveryAttempt maxRetries ⟨.pending, rc⟩ false
              = ⟨.failed, rc + 1⟩ := by simp [deliveryAttempt, hcap]
          simpa [deliveryRun, this] using
            ih _ (by intro h; cases h) (Nat.succ_le_of_lt hlt)
        · have : deliveryAttempt maxRetries ⟨.pending, rc⟩ false
              = ⟨.pending, rc + 1⟩ := by simp [deliveryAttempt, hcap]
          simpa [deliveryRun, this] using
            ih _ (fun _ => Nat.lt_of_not_le hcap) (Nat.le_of_not_le hcap)
    | delivered => exact ih _ (by intro h; cases h) hle
    | failed => exact ih _ (by intro h; cases h) hle

/-- `maxRetries` consecutive failures drive a pending record (with matching
headroom) to the terminal `failed` state at the maximum retry count. -/
theorem deliveryRun_all_failures (maxRetries : Nat) :
    ∀ (n rc : Nat), rc + (n + 1) = maxRetries →
      deliveryRun maxRetries ⟨.pending, rc⟩ (List.replicate (n + 1) false)
        = ⟨.failed, maxRetries⟩ := by
  intro n
  induction n with
  | zero =>
    intro rc h
    have hcap : maxRetries ≤ rc + 1 := Nat.le_of_eq h.symm
    simp [deliveryRun, deliveryAttempt, hcap, h]
  | succ n ih =>
    intro rc h
    have hcap : ¬ maxRetries ≤ rc + 1 := by omega
    have hstep : deliveryAttempt maxRetries ⟨.pending, rc⟩ false
        = ⟨.pending, rc + 1⟩ := by simp [deliveryAttempt, hcap]
    have := ih (rc + 1) (by omega)
    simpa [List.replicate_succ, deliveryRun, hstep] using this

/-- A `failed` record is terminal: no attempt ever changes it. -/
theorem deliveryRun_failed_terminal (maxRetries : Nat) :
    ∀ (outcomes : List Bool) (r : WebhookRecord), r.status = .failed →
      deliveryRun maxRetries r outcomes = r := by
  intro outcomes
  induction outcomes with
  | nil => intro r _; rfl
  | cons ok rest ih =>
    intro r hst
    rcases r with ⟨st, rc⟩
    cases hst
    simpa [deliveryRun, deliveryAttempt] using ih _ rfl

/-- A found rule carries the id it was looked up by. -/
theorem findRule_id (rs : List SmartRoutingRule) (i : String)
    (r : SmartRoutingRule) (h : findRule rs i = some r) : r.id = i := by
  have := List.find?_some h
  simpa using this

/-- Resolving a list of ids that all name rules of the set recovers exactly
those ids. -/
theorem filterMap_findRule_ids (rs : List SmartRoutingRule) :
    ∀ ids : List String, ids.all (resolvesActive rs) = true →
      (ids.filterMap (findRule rs)).map SmartRoutingRule.id = ids := by
  intro ids
  induction ids with
  | nil => intro _; rfl
  | cons i rest ih =>
    intro h
    rw [List.all_cons, Bool.and_eq_true] at h
    obtain ⟨hi, hrest⟩ := h
    unfold resolvesActive at hi
    cases hfind : findRule rs i with
    | none => rw [hfind] at hi; cases hi
    | some r =>
      have hid : r.id = i := findRule_id rs i r hfind
      simp [List.filterMap_cons, hfind, hid, ih hrest]

/-- Every rule resolved from an all-active id list is active. -/
theorem filterMap_findRule_active (rs : List SmartRoutingRule)
    (ids : List String) (h : ids.all (resolvesActive rs) = true) :
    ∀ r ∈ ids.filterMap (findRule rs), r.is_active = true := by
  intro r hr
  rcases List.mem_filterMap.mp hr with ⟨i, hi, hfind⟩
  have := List.all_eq_true.mp h i hi
  unfold resolvesActive at this
  rw [hfind] at this
  exact this

/-- Reassigning priorities does not change the rules' ids. -/
theorem assignPriorities_map_id (l : List SmartRoutingRule) :
    ∀ n, (assignPriorities n l).map SmartRoutingRule.id
      = l.map SmartRoutingRule.id := by
  induction l with
  | nil => intro n; rfl
  | cons r rest ih => intro n; simp [assignPriorities, ih]

/-- Reassigning priorities does not change the rules' active flags. -/
theorem assignPriorities_active (l : List SmartRoutingRule)
    (hact : ∀ r ∈ l, r.is_active = true) :
    ∀ n, ∀ r ∈ assignPriorities n l, r.is_active = true := by
  induction l with
  | nil => intro n r hr; cases hr
  | cons s rest ih =>
    intro n r hr
    rcases List.mem_cons.mp hr with hr | hr
    · subst hr; exact hact s (by simp)
    · exact ih (fun x hx => hact x (by simp [hx])) (n + 1) r hr

/-- Priorities assigned from `n` onward are all at least `n`. -/
theorem assignPriorities_ge (l : List SmartRoutingRule) :
    ∀ n, ∀ r ∈ assignPriorities n l, n ≤ r.priority := by
  induction l with
  | nil => intro n r hr; cases hr
  | cons s rest ih =>
    intro n r hr
    rcases List.mem_cons.mp hr with hr | hr
    · subst hr; exact Nat.le_refl n
    · exact Nat.le_of_succ_le (ih (n + 1) r hr)

/-- The reassigned priorities are strictly increasing along the list. -/
theorem assignPriorities_pairwise (l : List SmartRoutingRule) :
    ∀ n, List.Pairwise (fun a b => a.priority < b.priority)
      (assignPriorities n l) := by
  induction l with
  | nil => intro n; exact List.Pairwise.nil
  | cons s rest ih =>
    intro n
    refine List.Pairwise.cons ?_ (ih (n + 1))
    intro b hb
    exact Nat.lt_of_succ_le (assignPriorities_ge rest (n + 1) b hb)

/-- Filtering for active rules keeps an all-active list unchanged. -/
theorem activeRules_all_active (l : List SmartRoutingRule)
    (hact : ∀ r ∈ l, r.is_active = true) : activeRules l = l := by
  unfold activeRules
  induction l with
  | nil => rfl
  | cons s rest ih =>
    have hs : s.is_active = true := hact s (by simp)
    simp [List.filter_cons, hs, ih (fun x hx => hact x (by simp [hx]))]

/-- Sorting a list whose priorities already strictly increase returns it
unchanged. -/
theorem sortRules_pairwise_eq_self (l : List SmartRoutingRule)
    (h : List.Pairwise (fun a b => a.priority < b.priority) l) :
    sortRules l = l := by
  induction l with
  | nil => rfl
  | cons a rest ih =>
    have hrest := List.Pairwise.sublist (List.sublist_cons_self a rest) h
    have hsort : sortRules rest = rest := ih hrest
    show insertRule a (sortRules rest) = a :: rest
    rw [hsort]
    cases rest with
    | nil => rfl
    | cons b t =>
      have hab : a.priority < b.priority :=
        (List.pairwise_cons.mp h).1 b (by simp)
      have hle : ruleLE a b = true := by simp [ruleLE, hab]
      simp [insertRule, hle]

/-! ## Claim theorems -/

/-- C9: `connect` is idempotent while a connection is open or being opened:
under `isConnecting` or `isConnected`, a further call returns immediately
without creating a second socket or changing the service state. -/
theorem connect_idempotent_while_active (s : WSService)
    (h : s.isConnecting = true ∨ isConnected s = true) :
    connect s = s := by
  rcases h with h | h <;> simp [connect, h]

/-- Witness for C9, at a service holding an open socket. -/
theorem connect_idempotent_while_active_witness :
    connect { ws := some .opened, reconnectAttempts := 0, isConnecting := false }
      = { ws := some .opened, reconnectAttempts := 0, isConnecting := false } :=
  connect_idempotent_while_active _ (Or.inr (by decide))

/-- C10: after an explicit `disconnect` the service never reconnects on its
own: the reconnect counter is saturated at `maxReconnectAttempts`, and any
number of subsequent automatic reconnect invocations leaves the state
unchanged and schedules no connect at all. -/
theorem disconnect_stops_reconnection (s : WSService) (n : Nat) :
    (disconnect s).reconnectAttempts = maxReconnectAttempts ∧
    iterateReconnect n (disconnect s) = (disconnect s, []) := by
  refine ⟨rfl, ?_⟩
  induction n with
  | zero => rfl
  | succ n ih =>
    have hsat : attemptReconnect (disconnect s) = (disconnect s, none) :=
      attemptReconnect_saturated _ (Nat.le_refl _)
    simp [iterateReconnect, hsat, ih]

/-- C3 counterexample: two handlers are subscribed for the incoming message's
type, the first throws; only the first is invoked — the failure prevents
the remaining subscribed handler from running, refuting the claim. -/
theorem handler_failure_skips_rest_counterexample :
    (lookupHandlers exHandlers exMsg.type).map Prod.fst = [0, 1] ∧
    handleMessage exHandlers exMsg = ([0], some (.threw 7)) := by
  constructor <;> rfl

/-- C3 amended: a throwing handler does not block the WebSocket
message-receive caller (the `onmessage` try/catch swallows the exception
and yields only the invocation trace), but it does abort dispatch of that
event: exactly the succeeding handlers before it and itself run; the
handlers after it — and the wildcard handlers — are never invoked. -/
theorem handler_failure_caught_but_aborts_dispatch (hs : HandlerMap)
    (m : WSMessage) (pre post : List NHandler) (h : NHandler) (e : HError)
    (hlk : lookupHandlers hs m.type = pre ++ h :: post)
    (hpre : ∀ x ∈ pre, x.2 m.payload = none)
    (hthrew : h.2 m.payload = some e) :
    handleMessage hs m = (pre.map Prod.fst ++ [h.1], some e) ∧
    onMessageTrace hs m = pre.map Prod.fst ++ [h.1] := by
  have hrun := runHandlers_prefix_throw m.payload h e post pre hpre hthrew
  have hmain : handleMessage hs m = (pre.map Prod.fst ++ [h.1], some e) := by
    simp [handleMessage, hlk, hrun]
  exact ⟨hmain, by simp [onMessageTrace, hmain]⟩

/-- Witness for the amended C3, at the concrete counterexample handlers. -/
theorem handler_failure_caught_but_aborts_dispatch_witness :
    handleMessage exHandlers exMsg = ([0], some (.threw 7)) ∧
    onMessageTrace exHandlers exMsg = [0] :=
  handler_failure_caught_but_aborts_dispatch exHandlers exMsg []
    [(1, fun _ => none)] (0, fun _ => some (.threw 7)) (.threw 7)
    rfl (by intro x hx; cases hx) rfl

/-- C1 counterexample: the claim quantifies over *every* rule set containing
r1 and r2.  The set `[scenarioRule0, scenarioRule1, scenarioRule2]`
contains both, but `scenarioRule0` (priority 0) also fully matches the
event, so first-match returns its action — not `[r1.action]` — and
all-matches returns three actions — not `[r1.action, r2.action]`. -/
theorem scenario_superset_counterexample :
    evaluate .firstMatch [scenarioRule0, scenarioRule1, scenarioRule2] scenarioCtx
      ≠ [scenarioRule1.action] ∧
    evaluate .allMatches [scenarioRule0, scenarioRule1, scenarioRule2] scenarioCtx
      ≠ [scenarioRule1.action, scenarioRule2.action] := by
  constructor <;> decide

/-- C1 amended: for the team rule set consisting exactly of r1 and r2, the
event with `sentiment=negative, language=es` yields exactly `[r1.action]`
under the first-match policy and exactly `[r1.action, r2.action]` under
the all-matches policy. -/
theorem scenario_two_rule_evaluation :
    evaluate .firstMatch [scenarioRule1, scenarioRule2] scenarioCtx
      = [scenarioRule1.action] ∧
    evaluate .allMatches [scenarioRule1, scenarioRule2] scenarioCtx
      = [scenarioRule1.action, scenarioRule2.action] := by
  constructor <;> rfl

/-- C4: rule evaluation is deterministic — two evaluation runs of the same
event context against the same unchanged rule set produce the identical
action output and the identical matched-rule sequence. -/
theorem evaluation_deterministic (p : MatchPolicy) (rs : List SmartRoutingRule)
    (ctx : EvalContext) (out₁ out₂ : List RoutingAction)
    (matched₁ matched₂ : List SmartRoutingRule)
    (h1 : out₁ = evaluate p rs ctx) (h2 : out₂ = evaluate p rs ctx)
    (h3 : matched₁ = matchedRules p rs ctx)
    (h4 : matched₂ = matchedRules p rs ctx) :
    out₁ = out₂ ∧ matched₁ = matched₂ := by
  subst h1; subst h2; subst h3; subst h4; exact ⟨rfl, rfl⟩

/-- Witness for C4, two runs over the scenario rule set. -/
theorem evaluation_deterministic_witness :
    evaluate .firstMatch [scenarioRule1, scenarioRule2] scenarioCtx
      = evaluate .firstMatch [scenarioRule1, scenarioRule2] scenarioCtx ∧
    matchedRules .firstMatch [scenarioRule1, scenarioRule2] scenarioCtx
      = matchedRules .firstMatch [scenarioRule1, scenarioRule2] scenarioCtx :=
  evaluation_deterministic .firstMatch [scenarioRule1, scenarioRule2] scenarioCtx
    _ _ _ _ rfl rfl rfl rfl

/-- C6: a numeric operator over a field value that is not coercible to a
number yields a `ConditionTypeMismatch`; the error is non-fatal — it makes
only that condition (and hence the containing rule) fail as a non-match,
and the evaluation of the remaining rules proceeds exactly as if the rule
had simply not matched. -/
theorem numeric_mismatch_nonfatal (ctx : EvalContext) (c : RoutingCondition)
    (r : SmartRoutingRule) (v : String) (p : MatchPolicy)
    (rest : List SmartRoutingRule)
    (hv : ctx c.field = some v) (hnum : toNumber v = none)
    (hop : c.operator = .greater_than ∨ c.operator = .less_than)
    (hc : c ∈ r.conditions) :
    evalCondition ctx c = .error .conditionTypeMismatch ∧
    condHolds ctx c = false ∧
    ruleMatches ctx r = false ∧
    evalSorted p ctx (r :: rest) = evalSorted p ctx rest := by
  have hcond : evalCondition ctx c = .error .conditionTypeMismatch := by
    rcases hop with hop | hop <;> simp [evalCondition, hv, hop, hnum]
  have hholds : condHolds ctx c = false := by simp [condHolds, hcond]
  have hrule : ruleMatches ctx r = false := by
    by_contra hne
    have hall : r.conditions.all (condHolds ctx) = true := by
      cases hall : ruleMatches ctx r with
      | true => exact hall
      | false => exact absurd hall hne
    have := (List.all_eq_true.mp hall) c hc
    rw [hholds] at this
    exact Bool.false_ne_true this
  exact ⟨hcond, hholds, hrule, by simp [evalSorted, hrule]⟩

/-- Witness for C6: `greater_than` against the non-numeric sentiment value
`"negative"` fails only that rule; the following rule still matches. -/
theorem numeric_mismatch_nonfatal_witness :
    evalCondition scenarioCtx
        { field := .sentiment, operator := .greater_than, value := "5" }
      = .error .conditionTypeMismatch ∧
    condHolds scenarioCtx
        { field := .sentiment, operator := .greater_than, value := "5" }
      = false ∧
    ruleMatches scenarioCtx
        { scenarioRule0 with conditions :=
            [{ field := .sentiment, operator := .greater_than, value := "5" }] }
      = false ∧
    evalSorted .firstMatch scenarioCtx
        ({ scenarioRule0 with conditions :=
            [{ field := .sentiment, operator := .greater_than, value := "5" }] }
          :: [scenarioRule1])
      = evalSorted .firstMatch scenarioCtx [scenarioRule1] :=
  numeric_mismatch_nonfatal scenarioCtx
    { field := .sentiment, operator := .greater_than, value := "5" }
    { scenarioRule0 with conditions :=
        [{ field := .sentiment, operator := .greater_than, value := "5" }] }
    "negative" .firstMatch [scenarioRule1] rfl (by decide) (Or.inl rfl)
    (by decide)

/-- C7: the scheduled-message status only ever moves along
`draft→scheduled`, `scheduled→sent` (one-shot fire),
`scheduled→scheduled` (recurring fire) and non-`sent`→`cancelled`;
`cancelled` is terminal, a `sent` message is never cancelled, and a
recurring message stays `scheduled` after firing. -/
theorem scheduled_message_transitions :
    (∀ (op : SMsgOp) (m m' : SMsg), smStep op m = some m' →
      allowedTransition m.status m'.status = true) ∧
    (∀ (op : SMsgOp) (m : SMsg), m.status = .cancelled → smStep op m = none) ∧
    (∀ m : SMsg, m.status = .sent → smStep .cancel m = none) ∧
    (∀ (m m' : SMsg), m.schedule = .recurring → smStep .fire m = some m' →
      m'.status = .scheduled) := by
  refine ⟨?_, ?_, ?_, ?_⟩
  · rintro op ⟨st, sch, n⟩ m' hstep
    cases op <;> cases st <;> cases sch <;>
      simp_all [smStep] <;> simp [← hstep, allowedTransition]
  · rintro op ⟨st, sch, n⟩ hst
    cases hst
    cases op <;> cases sch <;> rfl
  · rintro ⟨st, sch, n⟩ hst
    cases hst
    cases sch <;> rfl
  · rintro ⟨st, sch, n⟩ m' hsch hstep
    cases hsch
    cases st <;> simp_all [smStep]
    simp [← hstep]

/-- Witness for C7: a one-shot fire on a scheduled message takes the allowed
`scheduled→sent` transition; cancelling a sent message is rejected;
a recurring fire keeps the message scheduled. -/
theorem scheduled_message_transitions_witness :
    allowedTransition ScheduledStatus.scheduled ScheduledStatus.sent = true ∧
    smStep .cancel { status := .sent, schedule := .once, sent_count := 1 } = none ∧
    SMsg.status { status := .scheduled, schedule := .recurring, sent_count := 3 }
      = .scheduled :=
  ⟨scheduled_message_transitions.1 .fire
      { status := .scheduled, schedule := .once, sent_count := 0 }
      { status := .sent, schedule := .once, sent_count := 1 } (by decide),
   scheduled_message_transitions.2.2.1
      { status := .sent, schedule := .once, sent_count := 1 } rfl,
   scheduled_message_transitions.2.2.2
      { status := .scheduled, schedule := .recurring, sent_count := 2 }
      { status := .scheduled, schedule := .recurring, sent_count := 3 }
      rfl (by decide)⟩

/-- C8: activation succeeds only on a node graph that is acyclic with exactly
one entry node; every graph with a cycle or with an entry count other than
one is rejected with a structural-validation error, the stored flow is
left unchanged, and the flow (still inactive) never runs. -/
theorem activation_validates_graph (w : FlowRecord) :
    (∀ w', activateFlow w = .ok w' →
      hasCycle w.graph = false ∧ (entryNodes w.graph).length = 1) ∧
    (hasCycle w.graph = true ∨ (entryNodes w.graph).length ≠ 1 →
      (∃ e, activateFlow w = .error e) ∧ afterActivate w = w ∧
      (w.is_active = false → canRun (afterActivate w) = false)) := by
  constructor
  · intro w' hok
    by_cases hcyc : hasCycle w.graph
    · simp [activateFlow, validateGraph, hcyc] at hok
    · by_cases hent : (entryNodes w.graph).length = 1
      · exact ⟨by simp [hcyc], hent⟩
      · simp [activateFlow, validateGraph, hcyc, hent] at hok
  · intro hbad
    have herr : ∃ e, activateFlow w = .error e := by
      rcases hbad with hcyc | hent
      · exact ⟨.cycleDetected, by simp [activateFlow, validateGraph, hcyc]⟩
      · by_cases hcyc : hasCycle w.graph
        · exact ⟨.cycleDetected, by simp [activateFlow, validateGraph, hcyc]⟩
        · exact ⟨.badEntryCount, by simp [activateFlow, validateGraph, hcyc, hent]⟩
    rcases herr with ⟨e, he⟩
    have hafter : afterActivate w = w := by simp [afterActivate, he]
    exact ⟨⟨e, he⟩, hafter, fun hina => by simp [canRun, hafter, hina]⟩

/-- Witness for C8: the cyclic two-node flow is rejected, kept unchanged, and
cannot run. -/
theorem activation_validates_graph_witness :
    (∃ e, activateFlow cyclicFlow = .error e) ∧
    afterActivate cyclicFlow = cyclicFlow ∧
    (cyclicFlow.is_active = false → canRun (afterActivate cyclicFlow) = false) :=
  (activation_validates_graph cyclicFlow).2 (Or.inl (by decide))

/-- C2: webhook delivery performs at most `max_retries` retries (the retry
counter never exceeds it); the backoff delay is non-decreasing in the
retry count; after `max_retries` consecutive failures the record is
`failed`; and a `failed` record is terminal — no further delivery attempt
is ever made for it. -/
theorem webhook_retry_bounded_backoff (base cap jitter maxRetries : Nat)
    (hmax : 1 ≤ maxRetries) :
    (∀ m n, m ≤ n →
      backoffDelay base cap jitter m ≤ backoffDelay base cap jitter n) ∧
    (∀ outcomes : List Bool,
      (deliveryRun maxRetries freshWebhook outcomes).retry_count ≤ maxRetries) ∧
    deliveryRun maxRetries freshWebhook (List.replicate maxRetries false)
      = { status := .failed, retry_count := maxRetries } ∧
    (∀ (r : WebhookRecord) (outcomes : List Bool), r.status = .failed →
      (∀ ok, deliveryAttempt maxRetries r ok = r) ∧
      deliveryRun maxRetries r outcomes = r) := by
  refine ⟨?_, ?_, ?_, ?_⟩
  · intro m n hmn
    unfold backoffDelay
    have hpow : base * 2 ^ m ≤ base * 2 ^ n :=
      Nat.mul_le_mul_left base (Nat.pow_le_pow_right (by decide) hmn)
    exact Nat.add_le_add_right (min_le_min hpow (Nat.le_refl cap)) jitter
  · intro outcomes
    exact deliveryRun_retry_le maxRetries outcomes freshWebhook
      (fun _ => hmax) (Nat.zero_le _)
  · have h := deliveryRun_all_failures maxRetries (maxRetries - 1) 0 (by omega)
    have hrep : (maxRetries - 1) + 1 = maxRetries := by omega
    rw [hrep] at h
    exact h
  · intro r outcomes hst
    refine ⟨?_, deliveryRun_failed_terminal maxRetries outcomes r hst⟩
    intro ok
    rcases r with ⟨st, rc⟩
    cases hst
    rfl

/-- Witness for C2 at `max_retries = 3`, base delay 1000, cap 30000,
jitter 7. -/
theorem webhook_retry_bounded_backoff_witness :
    backoffDelay 1000 30000 7 1 ≤ backoffDelay 1000 30000 7 2 ∧
    (deliveryRun 3 freshWebhook [false, true]).retry_count ≤ 3 ∧
    deliveryRun 3 freshWebhook (List.replicate 3 false)
      = { status := .failed, retry_count := 3 } ∧
    deliveryRun 3 { status := .failed, retry_count := 3 } [true, false]
      = { status := .failed, retry_count := 3 } :=
  have h := webhook_retry_bounded_backoff 1000 30000 7 3 (by decide)
  ⟨h.1 1 2 (by decide), h.2.1 [false, true], h.2.2.1,
    (h.2.2.2 { status := .failed, retry_count := 3 } [true, false] rfl).2⟩

/-- C5: after `reorder(rule_ids)` is applied to a team's rule set, every
subsequent evaluation considers the rules in exactly the order given by
`rule_ids`, regardless of the rules' original priority values.  (`reorder`
is a single atomic replacement of the rule list in this model, so an
evaluation sees either the old or the complete new ordering and never a
partially-applied one.) -/
theorem reorder_determines_evaluation_order (rs : List SmartRoutingRule)
    (ids : List String) (h : ids.all (resolvesActive rs) = true) :
    (evalOrder (reorder rs ids)).map SmartRoutingRule.id = ids := by
  unfold evalOrder reorder
  have hact := filterMap_findRule_active rs ids h
  have hfilter : activeRules (assignPriorities 0 (ids.filterMap (findRule rs)))
      = assignPriorities 0 (ids.filterMap (findRule rs)) :=
    activeRules_all_active _ (assignPriorities_active _ hact 0)
  rw [hfilter,
    sortRules_pairwise_eq_self _ (assignPriorities_pairwise _ 0),
    assignPriorities_map_id, filterMap_findRule_ids rs ids h]

/-- Witness for C5: reordering the three sample rules to `["2", "0", "1"]`
makes evaluations consider them in exactly that order, overriding their
original priorities 0, 1, 2. -/
theorem reorder_determines_evaluation_order_witness :
    (evalOrder (reorder [scenarioRule0, scenarioRule1, scenarioRule2]
        ["2", "0", "1"])).map SmartRoutingRule.id = ["2", "0", "1"] :=
  reorder_determines_evaluation_order
    [scenarioRule0, scenarioRule1, scenarioRule2] ["2", "0", "1"] (by decide)

end GhostWorker
